import Mathlib

/-!
Verification of the rate-limiting subsystem of the final-feedback service.

The Rust sources (src/db.rs, src/handlers.rs, src/models.rs, src/main.rs) are
shallowly embedded below.  SQLite tables become Lean lists, timestamps (stored
by the program as zero-padded "%Y-%m-%d %H:%M:%S" strings, whose lexicographic
order coincides with chronological order) become integers counted in seconds,
and `chrono::Duration::hours(1)` / `minutes(30)` become the constants 3600 and
1800.  Fallible store operations are modelled with explicit failure flags so
that the error-handling paths of `submit_feedback` can be stated.
-/

namespace FinalFeedback

/-- Row of the `feedback` table created by `init_database` in src/db.rs:
columns id, character_name, server, is_anonymous, the five ratings, comments,
content_type, player_job, ip_address, created_at. -/
structure FeedbackRow where
  id : String
  character_name : Option String
  server : Option String
  is_anonymous : Bool
  rating_mechanics : Int
  rating_damage : Int
  rating_teamwork : Int
  rating_communication : Int
  rating_overall : Int
  comments : Option String
  content_type : Option String
  player_job : Option String
  ip_address : String
  created_at : Int
  deriving DecidableEq, Repr

/-- Persistent store of src/db.rs: the `feedback` table, the
`cookie_submissions` table (cookie_id TEXT PRIMARY KEY, submitted_at) and the
`ip_attempts` table (ip_address, attempted_at). -/
structure DbState where
  feedback : List FeedbackRow
  cookie_submissions : List (String × Int)
  ip_attempts : List (String × Int)
  deriving DecidableEq, Repr

/-- Enum `RateLimitType` of src/db.rs. -/
inductive RateLimitType where
  | CookieSoftLimit
  | IpHardLimit
  deriving DecidableEq, Repr

/-- Function `check_rate_limits` of src/db.rs (lines 96-141), with the two
`chrono::Utc::now()` reads modelled by the single parameter `now`.  The SQL
`COUNT(*)` queries with `created_at > ?2` / `attempted_at > ?2` /
`submitted_at > ?2` become `List.countP` with a strict comparison against the
cutoff. -/
def check_rate_limits (s : DbState) (ip_address : String) (cookie_id : String)
    (ip_limit_max : Int) (now : Int) : Option RateLimitType :=
  let cutoff1h : Int := now - 3600
  let submission_count : Int :=
    s.feedback.countP (fun r => r.ip_address == ip_address && cutoff1h < r.created_at)
  let attempt_count : Int :=
    s.ip_attempts.countP (fun r => r.1 == ip_address && cutoff1h < r.2)
  let total_count := submission_count + attempt_count
  if total_count ≥ ip_limit_max then
    some RateLimitType.IpHardLimit
  else
    let cutoff30m : Int := now - 1800
    let cookie_count : Int :=
      s.cookie_submissions.countP (fun r => r.1 == cookie_id && cutoff30m < r.2)
    if cookie_count > 0 then
      some RateLimitType.CookieSoftLimit
    else
      none

/-- Function `record_submission` of src/db.rs (lines 143-150):
`INSERT OR REPLACE INTO cookie_submissions` keyed by the primary-key column
`cookie_id`, modelled as removing any row with that key and prepending the
fresh one. -/
def record_submission (s : DbState) (cookie_id : String) (now : Int) : DbState :=
  { s with cookie_submissions :=
      (cookie_id, now) :: s.cookie_submissions.filter (fun r => r.1 ≠ cookie_id) }

/-- Function `record_ip_attempt` of src/db.rs (lines 152-159): a plain
`INSERT INTO ip_attempts`, appending one row. -/
def record_ip_attempt (s : DbState) (ip_address : String) (now : Int) : DbState :=
  { s with ip_attempts := s.ip_attempts ++ [(ip_address, now)] }

/-- Rust `str::trim`: drop whitespace characters from both ends.  Implemented
over the character list so that it evaluates inside the kernel. -/
def rust_trim (s : String) : String :=
  String.mk (((s.toList.dropWhile Char.isWhitespace).reverse.dropWhile
      Char.isWhitespace).reverse)

/-- Accumulator pass of `rust_split`: cut the character list at every
separator, like Rust `str::split`, which always yields at least one piece. -/
def rust_split_aux (sep : Char) : List Char → List Char → List String
  | [], acc => [String.mk acc.reverse]
  | c :: rest, acc =>
    if c = sep then String.mk acc.reverse :: rust_split_aux sep rest []
    else rust_split_aux sep rest (c :: acc)

/-- Rust `str::split` with a one-character pattern. -/
def rust_split (s : String) (sep : Char) : List String :=
  rust_split_aux sep s.toList []

/-- Constant `FFXIV_SERVERS` of src/models.rs. -/
def FFXIV_SERVERS : List String :=
  ["Adamantoise", "Cactuar", "Faerie", "Gilgamesh", "Jenova", "Midgardsormr",
   "Sargatanas", "Siren",
   "Balmung", "Brynhildr", "Coeurl", "Diabolos", "Goblin", "Malboro", "Mateus",
   "Zalera",
   "Behemoth", "Excalibur", "Exodus", "Famfrit", "Hyperion", "Lamia",
   "Leviathan", "Ultros",
   "Halicarnassus", "Maduin", "Marilith", "Seraph", "Cuchulainn", "Golem",
   "Kraken", "Rafflesia",
   "Cerberus", "Louisoix", "Moogle", "Omega", "Phantom", "Ragnarok",
   "Sagittarius", "Spriggan",
   "Alpha", "Lich", "Odin", "Phoenix", "Raiden", "Shiva", "Twintania",
   "Zodiark",
   "Aegis", "Atomos", "Carbuncle", "Garuda", "Gungnir", "Kujata", "Tonberry",
   "Typhon",
   "Alexander", "Bahamut", "Durandal", "Fenrir", "Ifrit", "Ridill", "Tiamat",
   "Ultima",
   "Anima", "Asura", "Chocobo", "Hades", "Ixion", "Masamune", "Pandaemonium",
   "Titan",
   "Belias", "Mandragora", "Ramuh", "Shinryu", "Unicorn", "Valefor", "Yojimbo",
   "Zeromus",
   "Bismarck", "Ravana", "Sephirot", "Sophia", "Zurvan"]

/-- Rust `str::eq_ignore_ascii_case`: character-wise comparison after folding
ASCII letters to lower case (Lean's `Char.toLower` likewise only folds the
ASCII range). -/
def eq_ignore_ascii_case (a b : String) : Bool :=
  a.toList.map Char.toLower == b.toList.map Char.toLower

/-- Function `is_valid_server` of src/models.rs (lines 160-164). -/
def is_valid_server (server : String) : Bool :=
  FFXIV_SERVERS.any (fun s => eq_ignore_ascii_case s server)

/-- Form struct `FeedbackSubmission` of src/models.rs, the ratings being i32. -/
structure FeedbackSubmission where
  character_name : Option String
  server : Option String
  is_anonymous : Bool
  rating_mechanics : Int
  rating_damage : Int
  rating_teamwork : Int
  rating_communication : Int
  rating_overall : Int
  comments : Option String
  content_type : Option String
  player_job : Option String
  deriving DecidableEq, Repr

/-- Field-length caps of src/handlers.rs (lines 30-34). -/
def MAX_CHAR_NAME : Nat := 100

/-- Cap for the server field, src/handlers.rs line 31. -/
def MAX_SERVER : Nat := 50

/-- Cap for the comments field, src/handlers.rs line 32. -/
def MAX_COMMENTS : Nat := 200

/-- Cap for the content_type field, src/handlers.rs line 33. -/
def MAX_CONTENT_TYPE : Nat := 100

/-- Cap for the player_job field, src/handlers.rs line 34. -/
def MAX_PLAYER_JOB : Nat := 100

/-- Function `truncate_opt` of src/handlers.rs (lines 36-50): trim, drop empty
strings, and cut to at most `max_chars` characters. -/
def truncate_opt (input : Option String) (max_chars : Nat) : Option String :=
  input.bind (fun s =>
    let trimmed := rust_trim s
    if trimmed = "" then
      none
    else
      let cnt := trimmed.toList.length
      let out := if cnt > max_chars then String.mk (trimmed.toList.take max_chars)
                 else trimmed
      some out)

/-- Request-scoped inputs of `get_client_ip` and `submit_feedback` in
src/handlers.rs.  `peer_addr` mirrors `req.connection_info().peer_addr()`
(an Option, defaulted to "unknown").  A header field of `none` covers both an
absent header and one whose bytes fail `to_str()`: in the source either case
falls through to the next alternative identically. -/
structure Request where
  peer_addr : Option String
  x_forwarded_for : Option String
  x_real_ip : Option String
  feedback_session_cookie : Option String
  form : FeedbackSubmission
  deriving DecidableEq, Repr

/-- Function `get_client_ip` of src/handlers.rs (lines 55-89), returning
(peer_ip, display_ip).  The early `return` on a present-and-parseable
X-Forwarded-For header (whose `split(',').next()` never yields `None`), the
fallback to X-Real-IP, and the final fallback to the peer address are each a
match arm. -/
def get_client_ip (req : Request) (trusted_proxies : List String) :
    String × String :=
  let peer_ip := req.peer_addr.getD "unknown"
  let is_trusted_proxy :=
    trusted_proxies.any (fun proxy => rust_trim proxy == peer_ip)
  if is_trusted_proxy then
    match req.x_forwarded_for.bind (fun s => (rust_split s ',').head?) with
    | some ip => (peer_ip, rust_trim ip)
    | none =>
      match req.x_real_ip with
      | some ip => (peer_ip, rust_trim ip)
      | none => (peer_ip, peer_ip)
  else
    (peer_ip, peer_ip)

/-- Fields of `AppState` (src/handlers.rs lines 17-27) that the submission
pipeline reads, plus `rate_limit_minutes`, which src/main.rs parses from
RATE_LIMIT_MINUTES (default 30) and stores but which carries an
allow-dead-code mark and is read nowhere. -/
structure AppState where
  rate_limit_minutes : Int
  ip_rate_limit_max : Int
  trusted_proxy_ips : List String
  deriving DecidableEq, Repr

/-- Failure flags for the four fallible store operations that
`submit_feedback` performs, modelling rusqlite errors. -/
structure Faults where
  check_rate_limits_fails : Bool
  record_ip_attempt_fails : Bool
  insert_feedback_fails : Bool
  record_submission_fails : Bool
  deriving DecidableEq, Repr

/-- Fault assignment in which every store operation succeeds. -/
def noFaults : Faults := ⟨false, false, false, false⟩

/-- Outcome of `submit_feedback`, abstracting the rendered template to its
kind.  The soft- and hard-limit pages are 200 responses; `success` carries the
`feedback_session` cookie value set with Max-Age 3600. -/
inductive HttpResponseKind where
  | okSoftLimited
  | okHardLimited
  | okSuccess (cookie : String)
  | badRequest (msg : String)
  | internalServerError (msg : String)
  deriving DecidableEq, Repr

/-- Cookie-ID selection of src/handlers.rs lines 110-114: the value of the
`feedback_session` cookie when present, else a fresh UUID (`fresh_uuid`). -/
def cookie_id_of (req : Request) (fresh_uuid : String) : String :=
  match req.feedback_session_cookie with
  | some c => c
  | none => fresh_uuid

/-- Handler `submit_feedback` of src/handlers.rs (lines 101-293) as a function
from the current store to (response, new store).  `now` stands for the
request's clock reads, `new_id` for the freshly generated feedback UUID and
`fresh_cookie_uuid` for the UUID generated when no cookie is presented.  The
fire-and-forget Discord notification touches no store state and is omitted;
the `let _ = record_ip_attempt(..)` and the logged-and-ignored
`record_submission` error correspond to the two record fault flags leaving the
state unchanged while the response proceeds. -/
def submit_feedback (app : AppState) (req : Request) (s : DbState) (now : Int)
    (new_id : String) (fresh_cookie_uuid : String) (faults : Faults) :
    HttpResponseKind × DbState :=
  let peer_ip := (get_client_ip req app.trusted_proxy_ips).1
  let cookie_id := cookie_id_of req fresh_cookie_uuid
  if faults.check_rate_limits_fails then
    (HttpResponseKind.internalServerError "Database error", s)
  else
    match check_rate_limits s peer_ip cookie_id app.ip_rate_limit_max now with
    | some RateLimitType.CookieSoftLimit =>
      let s1 := if faults.record_ip_attempt_fails then s
                else record_ip_attempt s peer_ip now
      (HttpResponseKind.okSoftLimited, s1)
    | some RateLimitType.IpHardLimit =>
      (HttpResponseKind.okHardLimited, s)
    | none =>
      let ratings := [req.form.rating_mechanics, req.form.rating_damage,
                      req.form.rating_teamwork, req.form.rating_communication,
                      req.form.rating_overall]
      if ratings.any (fun r => !(1 ≤ r && r ≤ 5)) then
        (HttpResponseKind.badRequest "Invalid rating value", s)
      else
        let server_invalid :=
          !req.form.is_anonymous &&
            (match req.form.server with
             | some server =>
               server != "" &&
                 (server.toList.length > MAX_SERVER || !is_valid_server server)
             | none => false)
        if server_invalid then
          (HttpResponseKind.badRequest "Invalid server name", s)
        else
          let pair := if req.form.is_anonymous then (none, none)
            else (truncate_opt req.form.character_name MAX_CHAR_NAME,
                  truncate_opt req.form.server MAX_SERVER)
          let comments := truncate_opt req.form.comments MAX_COMMENTS
          let content_type := truncate_opt req.form.content_type MAX_CONTENT_TYPE
          let player_job := truncate_opt req.form.player_job MAX_PLAYER_JOB
          if faults.insert_feedback_fails then
            (HttpResponseKind.internalServerError "Failed to save feedback", s)
          else
            let row : FeedbackRow :=
              { id := new_id
                character_name := pair.1
                server := pair.2
                is_anonymous := req.form.is_anonymous
                rating_mechanics := req.form.rating_mechanics
                rating_damage := req.form.rating_damage
                rating_teamwork := req.form.rating_teamwork
                rating_communication := req.form.rating_communication
                rating_overall := req.form.rating_overall
                comments := comments
                content_type := content_type
                player_job := player_job
                ip_address := peer_ip
                created_at := now }
            let s1 := { s with feedback := s.feedback ++ [row] }
            let s2 := if faults.record_submission_fails then s1
                      else record_submission s1 cookie_id now
            (HttpResponseKind.okSuccess cookie_id, s2)

/-! Concrete fixtures used by the witnesses and counterexamples below. -/

/-- Form with all ratings 3, anonymous designation, no text fields. -/
def validForm : FeedbackSubmission :=
  ⟨none, none, true, 3, 3, 3, 3, 3, none, none, none⟩

/-- Request from peer 9.9.9.9 carrying a session cookie "tok" and a form whose
mechanics rating is 0, which is outside 1..5. -/
def badRatingReq : Request :=
  ⟨some "9.9.9.9", none, none, some "tok",
   { validForm with rating_mechanics := 0 }⟩

/-- Store holding exactly one cookie_submissions row ("tok", 1000). -/
def softBlockedState : DbState := ⟨[], [("tok", 1000)], []⟩

/-- App configuration with hard limit 10 and no trusted proxies. -/
def plainApp : AppState := ⟨30, 10, []⟩

/-! Helper lemmas shared by several claims. -/

/-- First component of `get_client_ip` is always the raw peer address,
whatever the headers and the proxy configuration. -/
lemma get_client_ip_fst (req : Request) (tp : List String) :
    (get_client_ip req tp).1 = req.peer_addr.getD "unknown" := by
  simp only [get_client_ip]
  split
  · split
    · rfl
    · split <;> rfl
  · rfl

/-- After one `record_submission` call the token has exactly one row. -/
lemma record_submission_count_self (s : DbState) (t : String) (now : Int) :
    (record_submission s t now).cookie_submissions.countP (fun r => r.1 == t) = 1 := by
  simp only [record_submission]
  rw [List.countP_cons]
  have hz : (s.cookie_submissions.filter (fun r => decide (r.1 ≠ t))).countP
      (fun r => r.1 == t) = 0 := by
    apply List.countP_eq_zero.mpr
    intro a ha
    have := (List.mem_filter.mp ha).2
    simp only [decide_not, Bool.not_eq_eq_eq_not, Bool.not_true, decide_eq_false_iff_not] at this
    simp [this]
  simp [hz]

/-- Request from trusted proxy 9.9.9.9 carrying both forwarded headers. -/
def proxyReq : Request :=
  ⟨some "9.9.9.9", some "1.2.3.4, 5.6.7.8", some "7.7.7.7", none, validForm⟩

/-- Store with all three tables empty. -/
def emptyState : DbState := ⟨[], [], []⟩

/-- Request whose form names a server that is not in `FFXIV_SERVERS`. -/
def badServerReq : Request :=
  ⟨some "9.9.9.9", none, none, some "tok",
   { validForm with is_anonymous := false, server := some "NotAServer" }⟩

/-- App configuration whose hard limit 0 blocks every address. -/
def zeroLimitApp : AppState := ⟨30, 0, []⟩

/-- Rating-validation condition of src/handlers.rs lines 159-171: some rating
lies outside 1..=5. -/
def ratings_rejected (form : FeedbackSubmission) : Bool :=
  [form.rating_mechanics, form.rating_damage, form.rating_teamwork,
   form.rating_communication, form.rating_overall].any
    (fun r => !(1 ≤ r && r ≤ 5))

/-- Server-validation condition of src/handlers.rs lines 173-185: a
non-anonymous form naming a nonempty server that is overlong or unknown. -/
def server_rejected (form : FeedbackSubmission) : Bool :=
  !form.is_anonymous &&
    (match form.server with
     | some server =>
       server != "" &&
         (server.toList.length > MAX_SERVER || !is_valid_server server)
     | none => false)

/-- Header values never influence `submit_feedback`: the pipeline reads the
request only through its peer address, its session cookie and its form. -/
lemma submit_feedback_headers_irrel (app : AppState) (pa xf xr xf2 xr2 c : Option String)
    (fm : FeedbackSubmission) (s : DbState) (now : Int) (nid fc : String) (f : Faults) :
    submit_feedback app ⟨pa, xf, xr, c, fm⟩ s now nid fc f
      = submit_feedback app ⟨pa, xf2, xr2, c, fm⟩ s now nid fc f := by
  simp only [submit_feedback]
  rw [get_client_ip_fst, get_client_ip_fst]
  rfl

/-- Path lemma: a failing `check_rate_limits` makes `submit_feedback` answer
a database error and leave the store untouched. -/
lemma submit_feedback_checkfail (app : AppState) (req : Request) (s : DbState)
    (now : Int) (nid fc : String) (f : Faults)
    (hf : f.check_rate_limits_fails = true) :
    submit_feedback app req s now nid fc f
      = (HttpResponseKind.internalServerError "Database error", s) := by
  simp [submit_feedback, hf]

/-- Path lemma: on a soft-block decision `submit_feedback` renders the
soft-limit page and performs exactly the `record_ip_attempt` write. -/
lemma submit_feedback_soft (app : AppState) (req : Request) (s : DbState)
    (now : Int) (nid fc : String) (f : Faults)
    (hf : f.check_rate_limits_fails = false)
    (hc : check_rate_limits s (req.peer_addr.getD "unknown") (cookie_id_of req fc)
        app.ip_rate_limit_max now = some RateLimitType.CookieSoftLimit) :
    submit_feedback app req s now nid fc f
      = (HttpResponseKind.okSoftLimited,
         if f.record_ip_attempt_fails then s
         else record_ip_attempt s (req.peer_addr.getD "unknown") now) := by
  simp [submit_feedback, get_client_ip_fst, hf, hc]

/-- Path lemma: on a hard-block decision `submit_feedback` renders the
hard-limit page and leaves the store untouched. -/
lemma submit_feedback_hard (app : AppState) (req : Request) (s : DbState)
    (now : Int) (nid fc : String) (f : Faults)
    (hf : f.check_rate_limits_fails = false)
    (hc : check_rate_limits s (req.peer_addr.getD "unknown") (cookie_id_of req fc)
        app.ip_rate_limit_max now = some RateLimitType.IpHardLimit) :
    submit_feedback app req s now nid fc f
      = (HttpResponseKind.okHardLimited, s) := by
  simp [submit_feedback, get_client_ip_fst, hf, hc]

/-- Path lemma: an invalid rating on an unlimited request is rejected with a
400 response and the store is untouched. -/
lemma submit_feedback_bad_rating (app : AppState) (req : Request) (s : DbState)
    (now : Int) (nid fc : String) (f : Faults)
    (hf : f.check_rate_limits_fails = false)
    (hc : check_rate_limits s (req.peer_addr.getD "unknown") (cookie_id_of req fc)
        app.ip_rate_limit_max now = none)
    (hr : ratings_rejected req.form = true) :
    submit_feedback app req s now nid fc f
      = (HttpResponseKind.badRequest "Invalid rating value", s) := by
  simp only [ratings_rejected] at hr
  simp only [submit_feedback, get_client_ip_fst, hc, hf]
  rw [if_neg (by simp), if_pos hr]

/-- Path lemma: an invalid server name on an unlimited request with valid
ratings is rejected with a 400 response and the store is untouched. -/
lemma submit_feedback_bad_server (app : AppState) (req : Request) (s : DbState)
    (now : Int) (nid fc : String) (f : Faults)
    (hf : f.check_rate_limits_fails = false)
    (hc : check_rate_limits s (req.peer_addr.getD "unknown") (cookie_id_of req fc)
        app.ip_rate_limit_max now = none)
    (hr : ratings_rejected req.form = false)
    (hs : server_rejected req.form = true) :
    submit_feedback app req s now nid fc f
      = (HttpResponseKind.badRequest "Invalid server name", s) := by
  simp only [ratings_rejected] at hr
  simp only [server_rejected] at hs
  simp only [submit_feedback, get_client_ip_fst, hc, hf]
  rw [if_neg (by simp), if_neg (by rw [hr]; simp), if_pos hs]

/-- Path lemma: when the decision is Allowed, the ip_attempts table is not
written, whatever else the pipeline does. -/
lemma submit_feedback_allowed_attempts (app : AppState) (req : Request)
    (s : DbState) (now : Int) (nid fc : String) (f : Faults)
    (hc : check_rate_limits s (req.peer_addr.getD "unknown") (cookie_id_of req fc)
        app.ip_rate_limit_max now = none) :
    (submit_feedback app req s now nid fc f).2.ip_attempts = s.ip_attempts := by
  simp only [submit_feedback, get_client_ip_fst, hc]
  repeat' split
  all_goals rfl

end FinalFeedback

namespace FinalFeedback

/-- C1: `check_rate_limits` returns the IP hard limit exactly when the number
of feedback rows for the address strictly inside the trailing hour plus the
number of ip_attempts rows for the address strictly inside the trailing hour
is at least the configured maximum; as this holds for every cookie token and
every cookie_submissions content, the hard check takes precedence over the
soft check. -/
theorem hard_limit_iff_window_count_ge (s : DbState) (A T : String) (N now : Int) :
    check_rate_limits s A T N now = some RateLimitType.IpHardLimit ↔
      N ≤ ((s.feedback.countP (fun r => r.ip_address == A && now - 3600 < r.created_at) : Int)
            + (s.ip_attempts.countP (fun r => r.1 == A && now - 3600 < r.2) : Int)) := by
  simp only [check_rate_limits]
  split_ifs with h1 h2
  · simpa using h1
  · simpa using h1
  · simpa using h1

/-- C2: when the address is under the hard limit, `check_rate_limits` returns
the cookie soft limit exactly when some cookie_submissions row for the token
is strictly newer than the 30-minute cutoff (a row exactly at the cutoff is
expired), and returns no limit (Allowed) otherwise. -/
theorem soft_limit_iff_recent_cookie (s : DbState) (A T : String) (N now : Int)
    (hard : ((s.feedback.countP (fun r => r.ip_address == A && now - 3600 < r.created_at) : Int)
              + (s.ip_attempts.countP (fun r => r.1 == A && now - 3600 < r.2) : Int)) < N) :
    (check_rate_limits s A T N now = some RateLimitType.CookieSoftLimit ↔
        ∃ p ∈ s.cookie_submissions, p.1 = T ∧ now - 1800 < p.2)
    ∧ (check_rate_limits s A T N now = none ↔
        ¬ ∃ p ∈ s.cookie_submissions, p.1 = T ∧ now - 1800 < p.2) := by
  have hiff : (0 : Int) <
      (s.cookie_submissions.countP (fun r => r.1 == T && now - 1800 < r.2) : Int) ↔
      ∃ p ∈ s.cookie_submissions, p.1 = T ∧ now - 1800 < p.2 := by
    rw [Int.natCast_pos, List.countP_pos_iff]
    simp
  simp only [check_rate_limits]
  rw [if_neg (not_le.mpr hard)]
  split_ifs with h
  · simp [hiff.mp h]
  · have hne : ¬ ∃ p ∈ s.cookie_submissions, p.1 = T ∧ now - 1800 < p.2 :=
      fun he => h (hiff.mpr he)
    simp [hne]

/-- Witness for C2 at a concrete store: one cookie row 500 seconds old
soft-blocks the token while the address count 0 is under the limit 10. -/
theorem soft_limit_iff_recent_cookie_witness :
    check_rate_limits softBlockedState "9.9.9.9" "tok" 10 1500
      = some RateLimitType.CookieSoftLimit :=
  (soft_limit_iff_recent_cookie softBlockedState "9.9.9.9" "tok" 10 1500
      (by decide)).1.mpr (by decide)

/-- C10: a device token with no cookie_submissions row is never soft-blocked;
the decision for it is Allowed or the IP hard limit. -/
theorem no_cookie_row_never_soft (s : DbState) (A T : String) (N now : Int)
    (h : ∀ p ∈ s.cookie_submissions, p.1 ≠ T) :
    check_rate_limits s A T N now = none
      ∨ check_rate_limits s A T N now = some RateLimitType.IpHardLimit := by
  simp only [check_rate_limits]
  split_ifs with h1 h2
  · exact Or.inr rfl
  · exfalso
    have hz : s.cookie_submissions.countP (fun r => r.1 == T && now - 1800 < r.2) = 0 := by
      apply List.countP_eq_zero.mpr
      intro a ha
      simp [h a ha]
    rw [hz] at h2
    simp at h2
  · exact Or.inl rfl

/-- Witness for C10: a fresh token over an empty store gets no soft block. -/
theorem no_cookie_row_never_soft_witness :
    check_rate_limits ⟨[], [], []⟩ "9.9.9.9" "fresh" 10 1500 = none
      ∨ check_rate_limits ⟨[], [], []⟩ "9.9.9.9" "fresh" 10 1500
          = some RateLimitType.IpHardLimit :=
  no_cookie_row_never_soft ⟨[], [], []⟩ "9.9.9.9" "fresh" 10 1500 (by decide)

/-- C6: `record_submission` is idempotent with respect to row count: one call
leaves exactly one cookie_submissions row for the token, leaves every other
token's row count unchanged, and any nonempty sequence of calls for the token
still leaves exactly one row for it. -/
theorem record_submission_idempotent (s : DbState) (t t2 : String) (now : Int)
    (ts : List Int) :
    (record_submission s t now).cookie_submissions.countP (fun r => r.1 == t) = 1
    ∧ (t2 ≠ t →
        (record_submission s t now).cookie_submissions.countP (fun r => r.1 == t2)
          = s.cookie_submissions.countP (fun r => r.1 == t2))
    ∧ (ts ≠ [] →
        ((ts.foldl (fun st τ => record_submission st t τ) s).cookie_submissions.countP
            (fun r => r.1 == t) = 1)) := by
  refine ⟨record_submission_count_self s t now, ?_, ?_⟩
  · intro hne
    simp only [record_submission]
    rw [List.countP_cons]
    have hpa : (((t, now) : String × Int).1 == t2) = false := by
      simpa using Ne.symm hne
    rw [hpa]
    simp only [Bool.false_eq_true, if_false, Nat.add_zero]
    rw [List.countP_filter]
    apply List.countP_congr
    intro a _
    cases h : (a.1 == t2) with
    | false => simp [h]
    | true =>
      have : a.1 = t2 := by simpa using h
      simp [h, this, hne]
  · induction ts generalizing s with
    | nil => intro h; exact absurd rfl h
    | cons a rest ih =>
      intro _
      cases rest with
      | nil => exact record_submission_count_self s t a
      | cons b more =>
        exact ih (record_submission s t a) (by simp)

/-- C5: when the peer address exactly matches (after trimming) an entry of the
trusted-proxy list, the display address is the first comma-separated token of
X-Forwarded-For, trimmed, when that header is present and parseable; else the
trimmed X-Real-IP value when present; else the peer address itself. -/
theorem trusted_proxy_display_address (req : Request) (tp : List String)
    (htr : tp.any (fun proxy => rust_trim proxy == req.peer_addr.getD "unknown")
        = true) :
    (∀ fwd ip, req.x_forwarded_for = some fwd →
        (rust_split fwd ',').head? = some ip →
        get_client_ip req tp = (req.peer_addr.getD "unknown", rust_trim ip))
    ∧ (req.x_forwarded_for = none → ∀ ip, req.x_real_ip = some ip →
        get_client_ip req tp = (req.peer_addr.getD "unknown", rust_trim ip))
    ∧ (req.x_forwarded_for = none → req.x_real_ip = none →
        get_client_ip req tp
          = (req.peer_addr.getD "unknown", req.peer_addr.getD "unknown")) := by
  refine ⟨?_, ?_, ?_⟩
  · intro fwd ip hf hh
    simp [get_client_ip, htr, hf, hh]
  · intro hf ip hr
    simp [get_client_ip, htr, hf, hr]
  · intro hf hr
    simp [get_client_ip, htr, hf, hr]

/-- Witness for C5: from trusted proxy 9.9.9.9 with X-Forwarded-For
"1.2.3.4, 5.6.7.8" the display address is "1.2.3.4". -/
theorem trusted_proxy_display_address_witness :
    get_client_ip proxyReq ["9.9.9.9"] = ("9.9.9.9", "1.2.3.4") := by
  rw [(trusted_proxy_display_address proxyReq ["9.9.9.9"] (by decide)).1
      "1.2.3.4, 5.6.7.8" "1.2.3.4" rfl (by decide)]
  decide

/-- C4: when the peer address is not in the trusted-proxy set, the display
address equals the peer address for every value of the two forwarded headers
(so two runs differing only in header values agree); moreover, for every
request whatsoever, `submit_feedback` is unchanged by the header values and
every feedback row it adds carries the raw peer address. -/
theorem untrusted_peer_headers_ignored (req : Request) (tp : List String)
    (app : AppState) (s : DbState) (now : Int) (new_id fresh_uuid : String)
    (f : Faults)
    (hnt : tp.any (fun proxy => rust_trim proxy == req.peer_addr.getD "unknown")
        = false) :
    (∀ xff xri,
        get_client_ip { req with x_forwarded_for := xff, x_real_ip := xri } tp
          = (req.peer_addr.getD "unknown", req.peer_addr.getD "unknown"))
    ∧ (∀ xff xri,
        submit_feedback app { req with x_forwarded_for := xff, x_real_ip := xri }
            s now new_id fresh_uuid f
          = submit_feedback app req s now new_id fresh_uuid f)
    ∧ (∀ row ∈ (submit_feedback app req s now new_id fresh_uuid f).2.feedback,
        row ∈ s.feedback ∨ row.ip_address = req.peer_addr.getD "unknown") := by
  refine ⟨?_, ?_, ?_⟩
  · intro xff xri
    simp [get_client_ip, hnt]
  · intro xff xri
    obtain ⟨pa, xf, xr, c, fm⟩ := req
    exact submit_feedback_headers_irrel app pa xff xri xf xr c fm s now new_id
      fresh_uuid f
  · intro row
    simp only [submit_feedback]
    split
    · exact fun h => Or.inl h
    · split
      · split <;> exact fun h => Or.inl h
      · exact fun h => Or.inl h
      · split
        · exact fun h => Or.inl h
        · split
          · exact fun h => Or.inl h
          · split
            · exact fun h => Or.inl h
            · split
              all_goals
                intro h
                rcases List.mem_append.mp h with h1 | h2
                · exact Or.inl h1
                · refine Or.inr ?_
                  have hrow : row.ip_address
                      = (get_client_ip req app.trusted_proxy_ips).1 := by
                    simp only [List.mem_singleton] at h2
                    rw [h2]
                  rw [hrow, get_client_ip_fst]

/-- Witness for C6: two concrete calls for "tok" leave one row for it, and
the count for "other" is untouched by a call for "tok". -/
theorem record_submission_idempotent_witness :
    (record_submission softBlockedState "tok" 2000).cookie_submissions.countP
        (fun r => r.1 == "tok") = 1
    ∧ (record_submission softBlockedState "tok" 2000).cookie_submissions.countP
        (fun r => r.1 == "other")
        = softBlockedState.cookie_submissions.countP (fun r => r.1 == "other")
    ∧ (([2000, 2500] : List Int).foldl
          (fun st τ => record_submission st "tok" τ) softBlockedState).cookie_submissions.countP
        (fun r => r.1 == "tok") = 1 :=
  ⟨(record_submission_idempotent softBlockedState "tok" "other" 2000 [2000, 2500]).1,
   (record_submission_idempotent softBlockedState "tok" "other" 2000 [2000, 2500]).2.1
     (by decide),
   (record_submission_idempotent softBlockedState "tok" "other" 2000 [2000, 2500]).2.2
     (by decide)⟩

/-- Witness for C4: peer 9.9.9.9 is not in the proxy list ["8.8.8.8"], so the
display address is the peer address despite a forged X-Forwarded-For. -/
theorem untrusted_peer_headers_ignored_witness :
    get_client_ip
        { badRatingReq with x_forwarded_for := some "5.5.5.5", x_real_ip := none }
        ["8.8.8.8"]
      = ("9.9.9.9", "9.9.9.9") :=
  (untrusted_peer_headers_ignored badRatingReq ["8.8.8.8"] plainApp
      softBlockedState 1500 "id1" "fc" noFaults (by decide)).1 (some "5.5.5.5") none

/-- C3: with no store faults, `record_ip_attempt` runs exactly when the
decision is the cookie soft limit — appending one ip_attempts row for the
peer address, touching no other table, and raising the address's in-window
hard-limit count by exactly 1; on any other decision ip_attempts is
untouched, and on the hard limit nothing at all is written. -/
theorem soft_block_records_attempt (app : AppState) (req : Request) (s : DbState)
    (now : Int) (nid fc : String) :
    (check_rate_limits s (req.peer_addr.getD "unknown") (cookie_id_of req fc)
        app.ip_rate_limit_max now = some RateLimitType.CookieSoftLimit →
      (submit_feedback app req s now nid fc noFaults).2
        = { s with ip_attempts :=
              s.ip_attempts ++ [(req.peer_addr.getD "unknown", now)] }
      ∧ (submit_feedback app req s now nid fc noFaults).2.ip_attempts.countP
            (fun r => r.1 == req.peer_addr.getD "unknown" && now - 3600 < r.2)
        = s.ip_attempts.countP
            (fun r => r.1 == req.peer_addr.getD "unknown" && now - 3600 < r.2) + 1)
    ∧ (check_rate_limits s (req.peer_addr.getD "unknown") (cookie_id_of req fc)
        app.ip_rate_limit_max now ≠ some RateLimitType.CookieSoftLimit →
      (submit_feedback app req s now nid fc noFaults).2.ip_attempts
        = s.ip_attempts)
    ∧ (check_rate_limits s (req.peer_addr.getD "unknown") (cookie_id_of req fc)
        app.ip_rate_limit_max now = some RateLimitType.IpHardLimit →
      submit_feedback app req s now nid fc noFaults
        = (HttpResponseKind.okHardLimited, s)) := by
  refine ⟨?_, ?_, ?_⟩
  · intro hc
    have h := submit_feedback_soft app req s now nid fc noFaults rfl hc
    rw [h]
    refine ⟨rfl, ?_⟩
    simp only [record_ip_attempt, noFaults]
    rw [if_neg (by simp)]
    rw [List.countP_append]
    simp

  · intro hne
    cases hc : check_rate_limits s (req.peer_addr.getD "unknown")
        (cookie_id_of req fc) app.ip_rate_limit_max now with
    | none => exact submit_feedback_allowed_attempts app req s now nid fc noFaults hc
    | some lt =>
      cases lt with
      | CookieSoftLimit => exact absurd hc hne
      | IpHardLimit =>
        rw [submit_feedback_hard app req s now nid fc noFaults rfl hc]
  · intro hc
    exact submit_feedback_hard app req s now nid fc noFaults rfl hc

/-- Witness for C3: a concrete soft-blocked request appends exactly the row
("9.9.9.9", 1500), and with hard limit 0 the same request is hard-blocked and
writes nothing. -/
theorem soft_block_records_attempt_witness :
    (submit_feedback plainApp badRatingReq softBlockedState 1500 "id1" "fc"
        noFaults).2
      = { softBlockedState with ip_attempts := [("9.9.9.9", 1500)] }
    ∧ submit_feedback zeroLimitApp badRatingReq softBlockedState 1500 "id1" "fc"
        noFaults
      = (HttpResponseKind.okHardLimited, softBlockedState) :=
  ⟨((soft_block_records_attempt plainApp badRatingReq softBlockedState 1500
      "id1" "fc").1 (by decide)).1,
   (soft_block_records_attempt zeroLimitApp badRatingReq softBlockedState 1500
      "id1" "fc").2.2 (by decide)⟩

/-- C7: a store failure inside `check_rate_limits` fails closed — the request
is answered with an internal server error and no row is written — while
failures inside `record_ip_attempt` or `record_submission` fail open: the
response is identical to the one of a run in which those writes succeed. -/
theorem store_failure_fail_closed_open (app : AppState) (req : Request)
    (s : DbState) (now : Int) (nid fc : String) (a i r a2 r2 : Bool) :
    submit_feedback app req s now nid fc ⟨true, a, i, r⟩
      = (HttpResponseKind.internalServerError "Database error", s)
    ∧ (submit_feedback app req s now nid fc ⟨false, a, i, r⟩).1
      = (submit_feedback app req s now nid fc ⟨false, a2, i, r2⟩).1 := by
  refine ⟨submit_feedback_checkfail app req s now nid fc ⟨true, a, i, r⟩ rfl, ?_⟩
  cases hc : check_rate_limits s (req.peer_addr.getD "unknown")
      (cookie_id_of req fc) app.ip_rate_limit_max now with
  | none =>
    simp only [submit_feedback, get_client_ip_fst, hc]
    split_ifs <;> rfl
  | some lt =>
    cases lt with
    | CookieSoftLimit =>
      rw [submit_feedback_soft app req s now nid fc _ rfl hc,
        submit_feedback_soft app req s now nid fc _ rfl hc]
    | IpHardLimit =>
      rw [submit_feedback_hard app req s now nid fc _ rfl hc,
        submit_feedback_hard app req s now nid fc _ rfl hc]

/-- Counterexample to C8 as stated: this malformed request (mechanics rating
0) arrives soft-blocked, and `submit_feedback` answers with the soft-limit
page, not a 400, while writing an ip_attempts row — a limiting-counter side
effect. -/
theorem malformed_input_counterexample :
    ratings_rejected badRatingReq.form = true
    ∧ (submit_feedback plainApp badRatingReq softBlockedState 1500 "id1" "fc"
        noFaults).1
      = HttpResponseKind.okSoftLimited
    ∧ (submit_feedback plainApp badRatingReq softBlockedState 1500 "id1" "fc"
        noFaults).2.ip_attempts
      = [("9.9.9.9", 1500)] := by
  decide

/-- C8 (amended): for a request whose rate-limit evaluation returns Allowed,
malformed input — a rating outside 1..=5, or an invalid server name — is
rejected with a 400 response and no table is written. -/
theorem malformed_input_rejected_when_allowed (app : AppState) (req : Request)
    (s : DbState) (now : Int) (nid fc : String)
    (hc : check_rate_limits s (req.peer_addr.getD "unknown") (cookie_id_of req fc)
        app.ip_rate_limit_max now = none) :
    (ratings_rejected req.form = true →
      submit_feedback app req s now nid fc noFaults
        = (HttpResponseKind.badRequest "Invalid rating value", s))
    ∧ (ratings_rejected req.form = false → server_rejected req.form = true →
      submit_feedback app req s now nid fc noFaults
        = (HttpResponseKind.badRequest "Invalid server name", s)) :=
  ⟨fun hr => submit_feedback_bad_rating app req s now nid fc noFaults rfl hc hr,
   fun hr hs => submit_feedback_bad_server app req s now nid fc noFaults rfl hc hr hs⟩

/-- Witness for the amended C8: an out-of-range rating and an unknown server
name are each rejected with a 400 over an empty store, which stays empty. -/
theorem malformed_input_rejected_when_allowed_witness :
    submit_feedback plainApp badRatingReq emptyState 1500 "id1" "fc" noFaults
      = (HttpResponseKind.badRequest "Invalid rating value", emptyState)
    ∧ submit_feedback plainApp badServerReq emptyState 1500 "id1" "fc" noFaults
      = (HttpResponseKind.badRequest "Invalid server name", emptyState) :=
  ⟨(malformed_input_rejected_when_allowed plainApp badRatingReq emptyState 1500
      "id1" "fc" (by decide)).1 (by decide),
   (malformed_input_rejected_when_allowed plainApp badServerReq emptyState 1500
      "id1" "fc" (by decide)).2 (by decide) (by decide)⟩

/-- C9: the configured rate_limit_minutes value is stored but read by no
rate-limit computation: two runs of `submit_feedback` differing only in that
configuration field coincide, the 30-minute soft window being hardcoded in
`check_rate_limits`. -/
theorem rate_limit_minutes_unused (m m2 mx : Int) (tp : List String)
    (req : Request) (s : DbState) (now : Int) (nid fc : String) (f : Faults) :
    submit_feedback ⟨m, mx, tp⟩ req s now nid fc f
      = submit_feedback ⟨m2, mx, tp⟩ req s now nid fc f := rfl

end FinalFeedback
